import Mathlib

/-!
Verification of `src/components.py` (EasiAuto UI components).

Shallow embedding of the pure control logic of the file:

* `WarningPopupWindow.countdown`   — countdown-to-auto-confirm modal dialog
* `WarningBanner.animate/paintEvent` — marquee banner animation state
* `BetterSettingCard.__init__` and its `Switch`/`Spin` subclasses — bindable
  setting cards around the qfluentwidgets `qconfig` store

Machine integers are modelled as `Int`/`Nat` (Python integers are unbounded,
so no wrap-around modelling is needed); code that can raise a Python
exception is modelled with `Option`.
-/

namespace EasiAuto

/-! ## Countdown prompt: `WarningPopupWindow.countdown` (components.py lines 46-75)

The state carries the mutable pieces touched by `countdown` and its nested
`update_text` closure: the `timeout` counter, the informative texts shown so
far (recorded as the numbers interpolated into the message string), whether
the Ok button's `click()` has been triggered, and whether the `QTimer` is
running. -/

structure CountdownState where
  timeout : Int
  /-- The numbers `t` shown by `setInformativeText(f"将在 {t} 秒后继续执行")`, oldest first. -/
  messages : List Int
  /-- `self.button(QMessageBox.Ok).click()` has been invoked. -/
  confirmClicked : Bool
  timerRunning : Bool
  deriving Repr, DecidableEq

/-- The nested `update_text` closure: if `timeout > 0`, display the remaining
time and decrement; otherwise click Ok and stop the timer. -/
def update_text (s : CountdownState) : CountdownState :=
  if s.timeout > 0 then
    { s with messages := s.messages ++ [s.timeout], timeout := s.timeout - 1 }
  else
    { s with confirmClicked := true, timerRunning := false }

/-- The state set up by `countdown(timeout)` before the synchronous
`update_text()` call: the argument normalisation `if timeout <= 0: timeout = 15`
followed by starting the one-second timer. -/
def countdownFresh (timeout : Int) : CountdownState :=
  { timeout := if timeout ≤ 0 then 15 else timeout
    messages := []
    confirmClicked := false
    timerRunning := true }

/-- `n` successive invocations of `update_text` (the synchronous call counts as
the first invocation; each later one is a timer tick). -/
def updateN : Nat → CountdownState → CountdownState
  | 0, s => s
  | n + 1, s => updateN n (update_text s)

/-- The value of `timeout` ("remaining time") observed at entry to each of the
next `n` invocations of `update_text`. -/
def remainingTrace : Nat → CountdownState → List Int
  | 0, _ => []
  | n + 1, s => s.timeout :: remainingTrace n (update_text s)

/-- Result of the modal `self.exec()` call: which standard button ended the
dialog (the dialog offers exactly Ok and Cancel). -/
inductive ExecResult where
  | ok
  | cancel
  deriving Repr, DecidableEq

/-- The tail of `countdown` after `exec()` returns: `timer.stop()`, then
`return 0` for Cancel and `return 1` otherwise.  Returns the final state and
the integer result of the call. -/
def countdownFinish (s : CountdownState) (r : ExecResult) : CountdownState × Nat :=
  let s' := { s with timerRunning := false }
  (s', if r = ExecResult.cancel then 0 else 1)

/-! ## Theorems about the countdown prompt -/

/-- C1: `countdown(3)` with no user action.  The remaining-time values seen by
the four `update_text` invocations (one synchronous, then one per one-second
tick) are 3, 2, 1, 0; the displayed messages are "3", "2", "1" — the initial
one shown synchronously before the first scheduled tick; the invocation that
sees remaining = 0 clicks the confirm (Ok) button and stops the timer; and the
call then returns 1 for the resulting Ok exec-result. -/
theorem countdown_start3_ticks_and_result :
    remainingTrace 4 (countdownFresh 3) = [3, 2, 1, 0] ∧
    (updateN 1 (countdownFresh 3)).messages = [3] ∧
    (updateN 4 (countdownFresh 3)).messages = [3, 2, 1] ∧
    (updateN 4 (countdownFresh 3)).confirmClicked = true ∧
    (updateN 4 (countdownFresh 3)).timerRunning = false ∧
    (countdownFinish (updateN 4 (countdownFresh 3)) ExecResult.ok).2 = 1 := by
  decide

/-- C6: whatever terminal exec-result ends the dialog, `countdown` returns
exactly 0 (Cancelled) or 1 (Confirmed) — 0 precisely for Cancel — and the
one-second timer is stopped before the call returns, on every exit path. -/
theorem countdown_result_and_timer_stopped (s : CountdownState) (r : ExecResult) :
    ((countdownFinish s r).2 = 0 ∨ (countdownFinish s r).2 = 1) ∧
    ((countdownFinish s r).2 = 0 ↔ r = ExecResult.cancel) ∧
    (countdownFinish s r).1.timerRunning = false := by
  cases r <;> simp [countdownFinish]

/-- C7: a non-positive timeout argument is silently replaced by the default 15,
so the countdown starts from exactly the state it would start from for 15. -/
theorem countdown_nonpositive_timeout_default (t : Int) (h : t ≤ 0) :
    countdownFresh t = countdownFresh 15 := by
  simp [countdownFresh, h]

/-- Witness for C7 at the concrete input `t = -3`. -/
theorem countdown_nonpositive_timeout_default_witness :
    (-3 : Int) ≤ 0 ∧ countdownFresh (-3) = countdownFresh 15 :=
  ⟨by decide, countdown_nonpositive_timeout_default (-3) (by decide)⟩

/-! ## Warning banner: `WarningBanner` (components.py lines 78-159)

`__init__` builds the stripe pixmap as `QPixmap(40, 32)`, sets `offset = 0`,
`text_x = 0`, and starts a timer at `1000 // Fps` milliseconds.  Every tick
runs `animate`: stripe `offset = (offset + 1) % stripe.width()` and text
`text_x -= speed` followed by the wraparound correction
`if text_x < -total_text_width: text_x += total_text_width`. -/

/-- `self.stripe.width()`: the stripe pixmap is created as `QPixmap(40, 32)`. -/
def stripeWidth : Nat := 40

/-- One tick of the stripe part of `animate`:
`self.offset = (self.offset + 1) % self.stripe.width()`. -/
def stripeStep (offset : Nat) : Nat := (offset + 1) % stripeWidth

/-- Stripe offset after `n` ticks of a fresh banner (`self.offset = 0`). -/
def stripeAfter : Nat → Nat
  | 0 => 0
  | n + 1 => stripeStep (stripeAfter n)

/-- One tick of the text part of `animate`, for cached text width `tw`
(`QFontMetrics(...).horizontalAdvance(self.text)`) and speed `speed`:
`text_x -= speed; if text_x < -tw: text_x += tw`. -/
def animateText (tw speed x : Int) : Int :=
  let x' := x - speed
  if x' < -tw then x' + tw else x'

/-- Text position `text_x` after `n` ticks of a fresh banner (`self.text_x = 0`). -/
def textAfter (tw speed : Int) : Nat → Int
  | 0 => 0
  | n + 1 => animateText tw speed (textAfter tw speed n)

/-- `timer.start(1000 // self.config.Fps)`: Python integer division raises
`ZeroDivisionError` for `Fps = 0`, modelled as `none`. -/
def tickInterval (fps : Nat) : Option Nat :=
  if fps = 0 then none else some (1000 / fps)

/-- The text tiling loop of `paintEvent`
(`x = self.text_x; while x < self.width(): drawText ...; x += text_width`),
run with `fuel` permitted iterations: `some` of the draw x-positions if the
loop exits within `fuel` iterations, `none` otherwise.  The loop terminates
iff some finite fuel suffices. -/
def tileLoop : Nat → Int → Int → Int → Option (List Int)
  | 0, x, w, _ => if x < w then none else some []
  | fuel + 1, x, w, tw =>
    if x < w then (tileLoop fuel (x + tw) w tw).map (fun l => x :: l)
    else some []

/-! ## Theorems about the banner -/

/-- C3: the stripe tile width is positive and the stripe offset after `n`
ticks from a fresh banner is exactly `n mod stripeWidth`, hence always in
`[0, stripeWidth)`. -/
theorem stripe_offset_mod (n : Nat) :
    0 < stripeWidth ∧
    stripeAfter n = n % stripeWidth ∧
    stripeAfter n < stripeWidth := by
  refine ⟨by decide, ?_, ?_⟩
  · induction n with
    | zero => rfl
    | succ m ih =>
      show stripeStep (stripeAfter m) = (m + 1) % stripeWidth
      rw [ih]
      unfold stripeStep stripeWidth
      omega
  · have h := (by
      induction n with
      | zero => rfl
      | succ m ih =>
        show stripeStep (stripeAfter m) = (m + 1) % stripeWidth
        rw [ih]
        unfold stripeStep stripeWidth
        omega : stripeAfter n = n % stripeWidth)
    rw [h]
    exact Nat.mod_lt _ (by decide)

/-- Helper for the C2 counterexample: with text width 5 and speed 5 the text
position is stuck at exactly `-5` from the first tick on. -/
theorem textAfter_five_five (n : Nat) : textAfter 5 5 (n + 1) = -5 := by
  induction n with
  | zero => decide
  | succ m ih =>
    show animateText 5 5 (textAfter 5 5 (m + 1)) = -5
    rw [ih]
    decide

/-- C2 counterexample: for text width `T = 5` and speed `s = 5` there is no
point after which `text_x` lies in the band `(-T, 0]` — after every tick it
equals `-5`, which is outside the open-below band. -/
theorem text_band_claim_false :
    ¬ ∃ N : Nat, ∀ n : Nat, N ≤ n →
      (-(5 : Int) < textAfter 5 5 n ∧ textAfter 5 5 n ≤ 0) := by
  rintro ⟨N, h⟩
  have h5 := h (N + 1) (Nat.le_succ N)
  rw [textAfter_five_five N] at h5
  exact absurd h5.1 (by decide)

/-- C2 amended: for text width `T > 0` and speed `s` with `0 ≤ s ≤ T`, the
text position stays in the closed band `[-T, 0]` after every tick from a
fresh banner, and whenever the wraparound fires it re-bases `text_x` by
adding `T` rather than resetting it to 0. -/
theorem text_band_invariant (T s : Int) (hT : 0 < T) (hs : 0 ≤ s) (hsT : s ≤ T) :
    (∀ n : Nat, -T ≤ textAfter T s n ∧ textAfter T s n ≤ 0) ∧
    (∀ x : Int, x - s < -T → animateText T s x = (x - s) + T) := by
  constructor
  · intro n
    induction n with
    | zero => constructor <;> simp [textAfter]; omega
    | succ m ih =>
      show -T ≤ animateText T s (textAfter T s m) ∧ animateText T s (textAfter T s m) ≤ 0
      simp only [animateText]
      split_ifs <;> constructor <;> omega
  · intro x hx
    simp only [animateText]
    split_ifs
    omega

/-- Witness for the amended C2 at `T = 5`, `s = 3`, seven ticks and the
wraparound at `x = -4`. -/
theorem text_band_invariant_witness :
    ((0 : Int) < 5 ∧ (0 : Int) ≤ 3 ∧ (3 : Int) ≤ 5) ∧
    (-(5 : Int) ≤ textAfter 5 3 7 ∧ textAfter 5 3 7 ≤ 0) ∧
    animateText 5 3 (-4) = (-4 - 3) + 5 :=
  ⟨⟨by decide, by decide, by decide⟩,
    (text_band_invariant 5 3 (by decide) (by decide) (by decide)).1 7,
    (text_band_invariant 5 3 (by decide) (by decide) (by decide)).2 (-4) (by decide)⟩

/-- Helper for C4: with text width 0, the tiling loop never exits while the
current x-position is left of the viewport edge (the loop adds 0 each turn). -/
theorem tileLoop_zero_width_none (fuel : Nat) (x w : Int) (h : x < w) :
    tileLoop fuel x w 0 = none := by
  induction fuel generalizing x with
  | zero => simp [tileLoop, h]
  | succ f ih =>
    unfold tileLoop
    rw [if_pos h]
    have : x + 0 = x := by omega
    rw [this, ih x h]
    rfl

/-- C4 counterexample: degenerate geometry is not guarded.  A zero frame rate
faults in the tick-interval computation (`1000 // 0` raises), and a zero-width
text makes the text tiling draw loop run forever on a 100-pixel-wide viewport:
no amount of fuel makes it exit. -/
theorem degenerate_geometry_not_guarded :
    tickInterval 0 = none ∧
    ¬ ∃ fuel : Nat, (tileLoop fuel 0 100 0).isSome = true := by
  refine ⟨rfl, ?_⟩
  rintro ⟨fuel, h⟩
  rw [tileLoop_zero_width_none fuel 0 100 (by decide)] at h
  exact absurd h (by decide)

/-- C4 amended: degenerate geometry is *not* guarded.  A zero frame rate
causes a division fault in the tick-interval computation (every positive frame
rate divides fine); a zero-width text leaves the wraparound check a harmless
no-op correction (each tick just moves `text_x` by `-speed`, no fault and no
loop), but makes the text tiling draw loop non-terminating whenever the start
position is left of the viewport edge. -/
theorem degenerate_geometry_behaviour :
    tickInterval 0 = none ∧
    (∀ fps : Nat, tickInterval (fps + 1) = some (1000 / (fps + 1))) ∧
    (∀ s x : Int, animateText 0 s x = x - s) ∧
    ¬ ∃ fuel : Nat, (tileLoop fuel 0 100 0).isSome = true := by
  refine ⟨rfl, fun fps => by simp [tickInterval], ?_, ?_⟩
  · intro s x
    simp only [animateText]
    split_ifs <;> omega
  · rintro ⟨fuel, h⟩
    rw [tileLoop_zero_width_none fuel 0 100 (by decide)] at h
    exact absurd h (by decide)

/-! ## Configuration store

Modelled from the spec: the qfluentwidgets `qconfig` store and its
`ConfigItem`s are library code not contained in this repository.  Spec §4.1:
`set(key, value)` validates/clamps the value against the item's declared range
when one is present, then stores it; `get(key)` returns the current value;
boolean items carry no range and are stored as given. -/

/-- Modelled from the spec: a numeric `RangeConfigItem` with declared range
`(lo, hi)`; out-of-range writes are clamped at the store boundary. -/
structure RangeItem where
  key : Nat
  lo : Int
  hi : Int
  deriving Repr, DecidableEq

/-- Modelled from the spec: a boolean `ConfigItem` (no range, no clamping). -/
structure BoolItem where
  key : Nat
  deriving Repr, DecidableEq

/-- Modelled from the spec: `qconfig.set` on a numeric item — clamp to the
declared range, then store under the item's key. -/
def qconfigSetInt (store : Nat → Int) (item : RangeItem) (v : Int) : Nat → Int :=
  fun k => if k = item.key then max item.lo (min item.hi v) else store k

/-- Modelled from the spec: `qconfig.get` on a numeric item. -/
def qconfigGetInt (store : Nat → Int) (item : RangeItem) : Int := store item.key

/-- Modelled from the spec: `qconfig.set` on a boolean item — store as given. -/
def qconfigSetBool (store : Nat → Bool) (item : BoolItem) (v : Bool) : Nat → Bool :=
  fun k => if k = item.key then v else store k

/-- Modelled from the spec: `qconfig.get` on a boolean item. -/
def qconfigGetBool (store : Nat → Bool) (item : BoolItem) : Bool := store item.key

/-! ## Setting cards: `BetterSettingCard` and subclasses (components.py 173-397) -/

/-- Observable state of a constructed `BetterSettingCard`. -/
structure BetterCard where
  hasIcon : Bool
  isItem : Bool
  title : String
  content : String
  contentVisible : Bool
  height : Nat
  iconSize : Option (Nat × Nat)
  deriving Repr, DecidableEq

/-- Python truthiness of the optional `content` argument: `None` and the empty
string are falsy. -/
def contentTruthy : Option String → Bool
  | none => false
  | some s => s != ""

/-- `BetterSettingCard.__init__` (lines 176-229).  `self.iconLabel` is created
only when `icon is not None` (`self.has_icon`); the guard is missing on line
206-207, so the `if not is_item: self.iconLabel.setFixedSize(16, 16)` path
raises `AttributeError` when there is no icon — construction fails, modelled
as `none`.  Otherwise the card records title, content (with `content or ""`
and hiding when falsy), the fixed height `70 if content else 50`, and the
16x16 icon size applied on the non-item path. -/
def betterSettingCardInit (icon : Option String) (title : String) (isItem : Bool)
    (content : Option String) : Option BetterCard :=
  let hasIcon := icon.isSome
  if !isItem && !hasIcon then none
  else some
    { hasIcon := hasIcon
      isItem := isItem
      title := title
      content := content.getD ""
      contentVisible := contentTruthy content
      height := if contentTruthy content then 70 else 50
      iconSize := if !isItem then some (16, 16) else none }

/-- `SwitchSettingCard` state: the optional bound item, the switch button's
checked state, and the button text set from `self.tr("On")`/`self.tr("Off")`. -/
structure SwitchCard where
  configItem : Option BoolItem
  checked : Bool
  label : String
  deriving Repr, DecidableEq

/-- `SwitchSettingCard.setValue` (lines 314-319): write through to the store
when a configItem is bound, then update the button's checked state and its
On/Off text.  Returns the updated card and store. -/
def SwitchCard.setValue (c : SwitchCard) (store : Nat → Bool) (v : Bool) :
    SwitchCard × (Nat → Bool) :=
  let store' := match c.configItem with
    | some item => qconfigSetBool store item v
    | none => store
  ({ c with checked := v, label := if v then "On" else "Off" }, store')

/-- `SwitchSettingCard.__onCheckedChanged` (lines 309-312): `setValue(isChecked)`
then `self.checkedChanged.emit(isChecked)` with the same raw argument.
Returns the updated card, the updated store, and the emitted value. -/
def SwitchCard.onCheckedChanged (c : SwitchCard) (store : Nat → Bool) (v : Bool) :
    SwitchCard × (Nat → Bool) × Bool :=
  let p := c.setValue store v
  (p.1, p.2, v)

/-- `SwitchSettingCard.__init__` (lines 268-307): the button starts with text
"Off" and unchecked; when a configItem is given, `setValue(qconfig.get(configItem))`
initialises the card from the store (and subscribes to future changes). -/
def switchInit (ci : Option BoolItem) (store : Nat → Bool) :
    SwitchCard × (Nat → Bool) :=
  let c0 : SwitchCard := { configItem := ci, checked := false, label := "Off" }
  match ci with
  | some item => c0.setValue store (qconfigGetBool store item)
  | none => (c0, store)

/-- `SpinSettingCard` state: the optional bound item and the spin box value. -/
structure SpinCard where
  configItem : Option RangeItem
  spinValue : Int
  deriving Repr, DecidableEq

/-- `SpinSettingCard.setValue` (lines 393-397): write through to the store when
a configItem is bound, then `self.spinBox.setValue(value)`. -/
def SpinCard.setValue (c : SpinCard) (store : Nat → Int) (v : Int) :
    SpinCard × (Nat → Int) :=
  let store' := match c.configItem with
    | some item => qconfigSetInt store item v
    | none => store
  ({ c with spinValue := v }, store')

/-- `SpinSettingCard.__onValueChanged` (lines 388-391): `setValue(value)` then
`self.valueChanged.emit(value)` with the same raw argument.  Returns the
updated card, the updated store, and the emitted value. -/
def SpinCard.onValueChanged (c : SpinCard) (store : Nat → Int) (v : Int) :
    SpinCard × (Nat → Int) × Int :=
  let p := c.setValue store v
  (p.1, p.2, v)

/-- `SpinSettingCard.__init__` (lines 333-386): the spin box starts at 0 (Qt
default); when a configItem is given, `setValue(qconfig.get(configItem))`
initialises the card from the store. -/
def spinInit (ci : Option RangeItem) (store : Nat → Int) :
    SpinCard × (Nat → Int) :=
  let c0 : SpinCard := { configItem := ci, spinValue := 0 }
  match ci with
  | some item => c0.setValue store (qconfigGetInt store item)
  | none => (c0, store)

/-! ## Theorems about the setting cards -/

/-- C5 counterexample: a spin card bound to an item with range (0, 100),
holding 50, receives the user input 150.  The store commits the clamped value
100, but the card emits the raw input 150, so the emitted value differs from
the store's value after the write. -/
theorem emitted_value_not_committed :
    (SpinCard.onValueChanged ⟨some ⟨0, 0, 100⟩, 50⟩ (fun _ => 50) 150).2.2 = 150 ∧
    (SpinCard.onValueChanged ⟨some ⟨0, 0, 100⟩, 50⟩ (fun _ => 50) 150).2.1 0 = 100 ∧
    (SpinCard.onValueChanged ⟨some ⟨0, 0, 100⟩, 50⟩ (fun _ => 50) 150).2.2 ≠
      (SpinCard.onValueChanged ⟨some ⟨0, 0, 100⟩, 50⟩ (fun _ => 50) 150).2.1 0 := by
  refine ⟨rfl, ?_, ?_⟩ <;>
    simp [SpinCard.onValueChanged, SpinCard.setValue, qconfigSetInt]

/-- C5 amended: on user interaction a bound control writes the new value to the
store exactly once and then emits its change event with the *raw* user input;
the emitted value therefore equals the store's committed value exactly when the
input lies within the item's declared range (no clamping occurred), as it does
for the clamp-free boolean switch, but not for an out-of-range numeric input. -/
theorem emitted_value_raw (c : SpinCard) (store : Nat → Int) (v : Int)
    (item : RangeItem) (hc : c.configItem = some item)
    (hlo : item.lo ≤ v) (hhi : v ≤ item.hi) :
    (c.onValueChanged store v).2.2 = v ∧
    (c.onValueChanged store v).2.1 item.key = v ∧
    (∀ u : Int, (c.onValueChanged store u).2.2 = u) ∧
    (∀ (b : SwitchCard) (sb : Nat → Bool) (w : Bool) (bi : BoolItem),
      b.configItem = some bi →
      (b.onCheckedChanged sb w).2.2 = w ∧ (b.onCheckedChanged sb w).2.1 bi.key = w) := by
  refine ⟨rfl, ?_, fun u => rfl, fun b sb w bi hb => ⟨rfl, ?_⟩⟩
  · simp [SpinCard.onValueChanged, SpinCard.setValue, hc, qconfigSetInt]
    omega
  · simp [SwitchCard.onCheckedChanged, SwitchCard.setValue, hb, qconfigSetBool]

/-- Witness for the amended C5: a bound spin card with range (0, 100) receives
the in-range input 70 — the emitted value and the store value are both 70 —
and a bound switch receives `true`. -/
theorem emitted_value_raw_witness :
    (SpinCard.onValueChanged ⟨some ⟨0, 0, 100⟩, 50⟩ (fun _ => 50) 70).2.2 = 70 ∧
    (SpinCard.onValueChanged ⟨some ⟨0, 0, 100⟩, 50⟩ (fun _ => 50) 70).2.1 0 = 70 ∧
    (SwitchCard.onCheckedChanged ⟨some ⟨1⟩, false, "Off"⟩ (fun _ => false) true).2.2 = true ∧
    (SwitchCard.onCheckedChanged ⟨some ⟨1⟩, false, "Off"⟩ (fun _ => false) true).2.1 1 = true := by
  have h := emitted_value_raw ⟨some ⟨0, 0, 100⟩, 50⟩ (fun _ => 50) 70 ⟨0, 0, 100⟩
    rfl (by decide) (by decide)
  have hb := h.2.2.2 ⟨some ⟨1⟩, false, "Off"⟩ (fun _ => false) true ⟨1⟩ rfl
  exact ⟨h.1, h.2.1, hb.1, hb.2⟩

/-- C8: a card constructed without a configItem never interacts with the store.
Construction returns the same fixed card whatever the store holds and leaves
the store untouched; every `setValue` leaves the store unchanged while still
updating the displayed value; and the user-interaction slot still emits the
change event carrying the new value.  Shown for both the switch card and the
spin card. -/
theorem unbound_card_no_store_interaction (storeB : Nat → Bool) (storeI : Nat → Int)
    (c : SwitchCard) (p : SpinCard) (v : Bool) (w : Int)
    (hc : c.configItem = none) (hp : p.configItem = none) :
    switchInit none storeB = ({ configItem := none, checked := false, label := "Off" }, storeB) ∧
    (c.setValue storeB v).2 = storeB ∧
    (c.setValue storeB v).1.checked = v ∧
    (c.onCheckedChanged storeB v).2.2 = v ∧
    spinInit none storeI = ({ configItem := none, spinValue := 0 }, storeI) ∧
    (p.setValue storeI w).2 = storeI ∧
    (p.setValue storeI w).1.spinValue = w ∧
    (p.onValueChanged storeI w).2.2 = w := by
  refine ⟨rfl, ?_, rfl, rfl, rfl, ?_, rfl, rfl⟩
  · simp [SwitchCard.setValue, hc]
  · simp [SpinCard.setValue, hp]

/-- Witness for C8: concrete unbound switch and spin cards over concrete
stores; the stores come back unchanged, the displays take the new values, and
the slots emit them. -/
theorem unbound_card_no_store_interaction_witness :
    switchInit none (fun _ => false) =
      ({ configItem := none, checked := false, label := "Off" }, fun _ => false) ∧
    (SwitchCard.setValue ⟨none, false, "Off"⟩ (fun _ => false) true).2 = (fun _ => false) ∧
    (SwitchCard.setValue ⟨none, false, "Off"⟩ (fun _ => false) true).1.checked = true ∧
    (SwitchCard.onCheckedChanged ⟨none, false, "Off"⟩ (fun _ => false) true).2.2 = true ∧
    spinInit none (fun _ => 3) = ({ configItem := none, spinValue := 0 }, fun _ => 3) ∧
    (SpinCard.setValue ⟨none, 0⟩ (fun _ => 3) 7).2 = (fun _ => 3) ∧
    (SpinCard.setValue ⟨none, 0⟩ (fun _ => 3) 7).1.spinValue = 7 ∧
    (SpinCard.onValueChanged ⟨none, 0⟩ (fun _ => 3) 7).2.2 = 7 :=
  unbound_card_no_store_interaction (fun _ => false) (fun _ => 3)
    ⟨none, false, "Off"⟩ ⟨none, 0⟩ true 7 rfl rfl

/-- C9 (code bug): constructing a card with `icon = None` raises
`AttributeError` whenever `is_item = False` — line 206-207 accesses
`self.iconLabel`, which exists only when an icon was given — while the same
construction succeeds with `is_item = True`.  So iconless construction does
not succeed for both values of the flag. -/
theorem iconless_construction_faults (title : String) (content : Option String) :
    betterSettingCardInit none title false content = none ∧
    (betterSettingCardInit none title true content).isSome = true := by
  constructor <;> simp [betterSettingCardInit]

/-- C10: for a switch card bound to a configItem, after any `setValue v` the
displayed checked state equals `v`, the On/Off label matches `v`, and `v` is
the store's value at the item's key — display and store agree. -/
theorem bound_switch_display_matches_store (c : SwitchCard) (store : Nat → Bool)
    (item : BoolItem) (v : Bool) (h : c.configItem = some item) :
    (c.setValue store v).1.checked = v ∧
    (c.setValue store v).1.label = (if v then "On" else "Off") ∧
    (c.setValue store v).2 item.key = v ∧
    (c.setValue store v).1.checked = (c.setValue store v).2 item.key := by
  refine ⟨rfl, rfl, ?_, ?_⟩ <;>
    simp [SwitchCard.setValue, h, qconfigSetBool]

/-- Witness for C10: a bound switch card over a concrete store, set to `true`. -/
theorem bound_switch_display_matches_store_witness :
    (SwitchCard.setValue ⟨some ⟨2⟩, false, "Off"⟩ (fun _ => false) true).1.checked = true ∧
    (SwitchCard.setValue ⟨some ⟨2⟩, false, "Off"⟩ (fun _ => false) true).1.label =
      (if true then "On" else "Off") ∧
    (SwitchCard.setValue ⟨some ⟨2⟩, false, "Off"⟩ (fun _ => false) true).2 2 = true ∧
    (SwitchCard.setValue ⟨some ⟨2⟩, false, "Off"⟩ (fun _ => false) true).1.checked =
      (SwitchCard.setValue ⟨some ⟨2⟩, false, "Off"⟩ (fun _ => false) true).2 2 :=
  bound_switch_display_matches_store ⟨some ⟨2⟩, false, "Off"⟩ (fun _ => false) ⟨2⟩ true rfl

end EasiAuto
